import Mathlib

/-!
# The stock-item header `gtk/gtkstock.h`

The header is declarative.  It holds one record type (`struct _GtkStockItem`),
seven function prototypes and 105 `#define`d string constants.

* every `#define GTK_STOCK_X "v"` is a Lean constant of the same name, and
  `stockDefines` lists the definitions in source order;
* the record and the prototypes are embedded as declarations (`CType`,
  `Field`, `Prototype`), and the record also as the Lean structure
  `GtkStockItem`;
* the functions are only declared in the header; the copy of a record is
  modelled from the specification in the last part of the definitions.
-/

namespace GtkStock

/-! ## Stock IDs: the `#define GTK_STOCK_*` lines, in source order -/

abbrev GTK_STOCK_ABOUT : String := "gtk-about"
abbrev GTK_STOCK_ADD : String := "gtk-add"
abbrev GTK_STOCK_APPLY : String := "gtk-apply"
abbrev GTK_STOCK_BOLD : String := "gtk-bold"
abbrev GTK_STOCK_CANCEL : String := "gtk-cancel"
abbrev GTK_STOCK_CAPS_LOCK_WARNING : String := "gtk-caps-lock-warning"
abbrev GTK_STOCK_CDROM : String := "gtk-cdrom"
abbrev GTK_STOCK_CLEAR : String := "gtk-clear"
abbrev GTK_STOCK_CLOSE : String := "gtk-close"
abbrev GTK_STOCK_COLOR_PICKER : String := "gtk-color-picker"
abbrev GTK_STOCK_CONNECT : String := "gtk-connect"
abbrev GTK_STOCK_CONVERT : String := "gtk-convert"
abbrev GTK_STOCK_COPY : String := "gtk-copy"
abbrev GTK_STOCK_CUT : String := "gtk-cut"
abbrev GTK_STOCK_DELETE : String := "gtk-delete"
abbrev GTK_STOCK_DIALOG_AUTHENTICATION : String := "gtk-dialog-authentication"
abbrev GTK_STOCK_DIALOG_INFO : String := "gtk-dialog-info"
abbrev GTK_STOCK_DIALOG_WARNING : String := "gtk-dialog-warning"
abbrev GTK_STOCK_DIALOG_ERROR : String := "gtk-dialog-error"
abbrev GTK_STOCK_DIALOG_QUESTION : String := "gtk-dialog-question"
abbrev GTK_STOCK_DIRECTORY : String := "gtk-directory"
abbrev GTK_STOCK_DISCARD : String := "gtk-discard"
abbrev GTK_STOCK_DISCONNECT : String := "gtk-disconnect"
abbrev GTK_STOCK_DND : String := "gtk-dnd"
abbrev GTK_STOCK_DND_MULTIPLE : String := "gtk-dnd-multiple"
abbrev GTK_STOCK_EDIT : String := "gtk-edit"
abbrev GTK_STOCK_EXECUTE : String := "gtk-execute"
abbrev GTK_STOCK_FILE : String := "gtk-file"
abbrev GTK_STOCK_FIND : String := "gtk-find"
abbrev GTK_STOCK_FIND_AND_REPLACE : String := "gtk-find-and-replace"
abbrev GTK_STOCK_FLOPPY : String := "gtk-floppy"
abbrev GTK_STOCK_FULLSCREEN : String := "gtk-fullscreen"
abbrev GTK_STOCK_GOTO_BOTTOM : String := "gtk-goto-bottom"
abbrev GTK_STOCK_GOTO_FIRST : String := "gtk-goto-first"
abbrev GTK_STOCK_GOTO_LAST : String := "gtk-goto-last"
abbrev GTK_STOCK_GOTO_TOP : String := "gtk-goto-top"
abbrev GTK_STOCK_GO_BACK : String := "gtk-go-back"
abbrev GTK_STOCK_GO_DOWN : String := "gtk-go-down"
abbrev GTK_STOCK_GO_FORWARD : String := "gtk-go-forward"
abbrev GTK_STOCK_GO_UP : String := "gtk-go-up"
abbrev GTK_STOCK_HARDDISK : String := "gtk-harddisk"
abbrev GTK_STOCK_HELP : String := "gtk-help"
abbrev GTK_STOCK_HOME : String := "gtk-home"
abbrev GTK_STOCK_INDEX : String := "gtk-index"
abbrev GTK_STOCK_INDENT : String := "gtk-indent"
abbrev GTK_STOCK_INFO : String := "gtk-info"
abbrev GTK_STOCK_ITALIC : String := "gtk-italic"
abbrev GTK_STOCK_JUMP_TO : String := "gtk-jump-to"
abbrev GTK_STOCK_JUSTIFY_CENTER : String := "gtk-justify-center"
abbrev GTK_STOCK_JUSTIFY_FILL : String := "gtk-justify-fill"
abbrev GTK_STOCK_JUSTIFY_LEFT : String := "gtk-justify-left"
abbrev GTK_STOCK_JUSTIFY_RIGHT : String := "gtk-justify-right"
abbrev GTK_STOCK_LEAVE_FULLSCREEN : String := "gtk-leave-fullscreen"
abbrev GTK_STOCK_MISSING_IMAGE : String := "gtk-missing-image"
abbrev GTK_STOCK_MEDIA_FORWARD : String := "gtk-media-forward"
abbrev GTK_STOCK_MEDIA_NEXT : String := "gtk-media-next"
abbrev GTK_STOCK_MEDIA_PAUSE : String := "gtk-media-pause"
abbrev GTK_STOCK_MEDIA_PLAY : String := "gtk-media-play"
abbrev GTK_STOCK_MEDIA_PREVIOUS : String := "gtk-media-previous"
abbrev GTK_STOCK_MEDIA_RECORD : String := "gtk-media-record"
abbrev GTK_STOCK_MEDIA_REWIND : String := "gtk-media-rewind"
abbrev GTK_STOCK_MEDIA_STOP : String := "gtk-media-stop"
abbrev GTK_STOCK_NETWORK : String := "gtk-network"
abbrev GTK_STOCK_NEW : String := "gtk-new"
abbrev GTK_STOCK_NO : String := "gtk-no"
abbrev GTK_STOCK_OK : String := "gtk-ok"
abbrev GTK_STOCK_OPEN : String := "gtk-open"
abbrev GTK_STOCK_ORIENTATION_PORTRAIT : String := "gtk-orientation-portrait"
abbrev GTK_STOCK_ORIENTATION_LANDSCAPE : String := "gtk-orientation-landscape"
abbrev GTK_STOCK_ORIENTATION_REVERSE_LANDSCAPE : String := "gtk-orientation-reverse-landscape"
abbrev GTK_STOCK_ORIENTATION_REVERSE_PORTRAIT : String := "gtk-orientation-reverse-portrait"
abbrev GTK_STOCK_PAGE_SETUP : String := "gtk-page-setup"
abbrev GTK_STOCK_PASTE : String := "gtk-paste"
abbrev GTK_STOCK_PREFERENCES : String := "gtk-preferences"
abbrev GTK_STOCK_PRINT : String := "gtk-print"
abbrev GTK_STOCK_PRINT_ERROR : String := "gtk-print-error"
abbrev GTK_STOCK_PRINT_PAUSED : String := "gtk-print-paused"
abbrev GTK_STOCK_PRINT_PREVIEW : String := "gtk-print-preview"
abbrev GTK_STOCK_PRINT_REPORT : String := "gtk-print-report"
abbrev GTK_STOCK_PRINT_WARNING : String := "gtk-print-warning"
abbrev GTK_STOCK_PROPERTIES : String := "gtk-properties"
abbrev GTK_STOCK_QUIT : String := "gtk-quit"
abbrev GTK_STOCK_REDO : String := "gtk-redo"
abbrev GTK_STOCK_REFRESH : String := "gtk-refresh"
abbrev GTK_STOCK_REMOVE : String := "gtk-remove"
abbrev GTK_STOCK_REVERT_TO_SAVED : String := "gtk-revert-to-saved"
abbrev GTK_STOCK_SAVE : String := "gtk-save"
abbrev GTK_STOCK_SAVE_AS : String := "gtk-save-as"
abbrev GTK_STOCK_SELECT_ALL : String := "gtk-select-all"
abbrev GTK_STOCK_SELECT_COLOR : String := "gtk-select-color"
abbrev GTK_STOCK_SELECT_FONT : String := "gtk-select-font"
abbrev GTK_STOCK_SORT_ASCENDING : String := "gtk-sort-ascending"
abbrev GTK_STOCK_SORT_DESCENDING : String := "gtk-sort-descending"
abbrev GTK_STOCK_SPELL_CHECK : String := "gtk-spell-check"
abbrev GTK_STOCK_STOP : String := "gtk-stop"
abbrev GTK_STOCK_STRIKETHROUGH : String := "gtk-strikethrough"
abbrev GTK_STOCK_UNDELETE : String := "gtk-undelete"
abbrev GTK_STOCK_UNDERLINE : String := "gtk-underline"
abbrev GTK_STOCK_UNDO : String := "gtk-undo"
abbrev GTK_STOCK_UNINDENT : String := "gtk-unindent"
abbrev GTK_STOCK_YES : String := "gtk-yes"
abbrev GTK_STOCK_ZOOM_100 : String := "gtk-zoom-100"
abbrev GTK_STOCK_ZOOM_FIT : String := "gtk-zoom-fit"
abbrev GTK_STOCK_ZOOM_IN : String := "gtk-zoom-in"
abbrev GTK_STOCK_ZOOM_OUT : String := "gtk-zoom-out"

/-- One line `#define NAME "value"` of the header: the macro name and its replacement string. -/
structure Define where
  name : String
  value : String
deriving DecidableEq, Repr

/-- All `#define GTK_STOCK_*` lines of `gtkstock.h`, in source order (lines 80 to 1012). -/
def stockDefines : List Define :=
  [Define.mk "GTK_STOCK_ABOUT" GTK_STOCK_ABOUT,
   Define.mk "GTK_STOCK_ADD" GTK_STOCK_ADD,
   Define.mk "GTK_STOCK_APPLY" GTK_STOCK_APPLY,
   Define.mk "GTK_STOCK_BOLD" GTK_STOCK_BOLD,
   Define.mk "GTK_STOCK_CANCEL" GTK_STOCK_CANCEL,
   Define.mk "GTK_STOCK_CAPS_LOCK_WARNING" GTK_STOCK_CAPS_LOCK_WARNING,
   Define.mk "GTK_STOCK_CDROM" GTK_STOCK_CDROM,
   Define.mk "GTK_STOCK_CLEAR" GTK_STOCK_CLEAR,
   Define.mk "GTK_STOCK_CLOSE" GTK_STOCK_CLOSE,
   Define.mk "GTK_STOCK_COLOR_PICKER" GTK_STOCK_COLOR_PICKER,
   Define.mk "GTK_STOCK_CONNECT" GTK_STOCK_CONNECT,
   Define.mk "GTK_STOCK_CONVERT" GTK_STOCK_CONVERT,
   Define.mk "GTK_STOCK_COPY" GTK_STOCK_COPY,
   Define.mk "GTK_STOCK_CUT" GTK_STOCK_CUT,
   Define.mk "GTK_STOCK_DELETE" GTK_STOCK_DELETE,
   Define.mk "GTK_STOCK_DIALOG_AUTHENTICATION" GTK_STOCK_DIALOG_AUTHENTICATION,
   Define.mk "GTK_STOCK_DIALOG_INFO" GTK_STOCK_DIALOG_INFO,
   Define.mk "GTK_STOCK_DIALOG_WARNING" GTK_STOCK_DIALOG_WARNING,
   Define.mk "GTK_STOCK_DIALOG_ERROR" GTK_STOCK_DIALOG_ERROR,
   Define.mk "GTK_STOCK_DIALOG_QUESTION" GTK_STOCK_DIALOG_QUESTION,
   Define.mk "GTK_STOCK_DIRECTORY" GTK_STOCK_DIRECTORY,
   Define.mk "GTK_STOCK_DISCARD" GTK_STOCK_DISCARD,
   Define.mk "GTK_STOCK_DISCONNECT" GTK_STOCK_DISCONNECT,
   Define.mk "GTK_STOCK_DND" GTK_STOCK_DND,
   Define.mk "GTK_STOCK_DND_MULTIPLE" GTK_STOCK_DND_MULTIPLE,
   Define.mk "GTK_STOCK_EDIT" GTK_STOCK_EDIT,
   Define.mk "GTK_STOCK_EXECUTE" GTK_STOCK_EXECUTE,
   Define.mk "GTK_STOCK_FILE" GTK_STOCK_FILE,
   Define.mk "GTK_STOCK_FIND" GTK_STOCK_FIND,
   Define.mk "GTK_STOCK_FIND_AND_REPLACE" GTK_STOCK_FIND_AND_REPLACE,
   Define.mk "GTK_STOCK_FLOPPY" GTK_STOCK_FLOPPY,
   Define.mk "GTK_STOCK_FULLSCREEN" GTK_STOCK_FULLSCREEN,
   Define.mk "GTK_STOCK_GOTO_BOTTOM" GTK_STOCK_GOTO_BOTTOM,
   Define.mk "GTK_STOCK_GOTO_FIRST" GTK_STOCK_GOTO_FIRST,
   Define.mk "GTK_STOCK_GOTO_LAST" GTK_STOCK_GOTO_LAST,
   Define.mk "GTK_STOCK_GOTO_TOP" GTK_STOCK_GOTO_TOP,
   Define.mk "GTK_STOCK_GO_BACK" GTK_STOCK_GO_BACK,
   Define.mk "GTK_STOCK_GO_DOWN" GTK_STOCK_GO_DOWN,
   Define.mk "GTK_STOCK_GO_FORWARD" GTK_STOCK_GO_FORWARD,
   Define.mk "GTK_STOCK_GO_UP" GTK_STOCK_GO_UP,
   Define.mk "GTK_STOCK_HARDDISK" GTK_STOCK_HARDDISK,
   Define.mk "GTK_STOCK_HELP" GTK_STOCK_HELP,
   Define.mk "GTK_STOCK_HOME" GTK_STOCK_HOME,
   Define.mk "GTK_STOCK_INDEX" GTK_STOCK_INDEX,
   Define.mk "GTK_STOCK_INDENT" GTK_STOCK_INDENT,
   Define.mk "GTK_STOCK_INFO" GTK_STOCK_INFO,
   Define.mk "GTK_STOCK_ITALIC" GTK_STOCK_ITALIC,
   Define.mk "GTK_STOCK_JUMP_TO" GTK_STOCK_JUMP_TO,
   Define.mk "GTK_STOCK_JUSTIFY_CENTER" GTK_STOCK_JUSTIFY_CENTER,
   Define.mk "GTK_STOCK_JUSTIFY_FILL" GTK_STOCK_JUSTIFY_FILL,
   Define.mk "GTK_STOCK_JUSTIFY_LEFT" GTK_STOCK_JUSTIFY_LEFT,
   Define.mk "GTK_STOCK_JUSTIFY_RIGHT" GTK_STOCK_JUSTIFY_RIGHT,
   Define.mk "GTK_STOCK_LEAVE_FULLSCREEN" GTK_STOCK_LEAVE_FULLSCREEN,
   Define.mk "GTK_STOCK_MISSING_IMAGE" GTK_STOCK_MISSING_IMAGE,
   Define.mk "GTK_STOCK_MEDIA_FORWARD" GTK_STOCK_MEDIA_FORWARD,
   Define.mk "GTK_STOCK_MEDIA_NEXT" GTK_STOCK_MEDIA_NEXT,
   Define.mk "GTK_STOCK_MEDIA_PAUSE" GTK_STOCK_MEDIA_PAUSE,
   Define.mk "GTK_STOCK_MEDIA_PLAY" GTK_STOCK_MEDIA_PLAY,
   Define.mk "GTK_STOCK_MEDIA_PREVIOUS" GTK_STOCK_MEDIA_PREVIOUS,
   Define.mk "GTK_STOCK_MEDIA_RECORD" GTK_STOCK_MEDIA_RECORD,
   Define.mk "GTK_STOCK_MEDIA_REWIND" GTK_STOCK_MEDIA_REWIND,
   Define.mk "GTK_STOCK_MEDIA_STOP" GTK_STOCK_MEDIA_STOP,
   Define.mk "GTK_STOCK_NETWORK" GTK_STOCK_NETWORK,
   Define.mk "GTK_STOCK_NEW" GTK_STOCK_NEW,
   Define.mk "GTK_STOCK_NO" GTK_STOCK_NO,
   Define.mk "GTK_STOCK_OK" GTK_STOCK_OK,
   Define.mk "GTK_STOCK_OPEN" GTK_STOCK_OPEN,
   Define.mk "GTK_STOCK_ORIENTATION_PORTRAIT" GTK_STOCK_ORIENTATION_PORTRAIT,
   Define.mk "GTK_STOCK_ORIENTATION_LANDSCAPE" GTK_STOCK_ORIENTATION_LANDSCAPE,
   Define.mk "GTK_STOCK_ORIENTATION_REVERSE_LANDSCAPE" GTK_STOCK_ORIENTATION_REVERSE_LANDSCAPE,
   Define.mk "GTK_STOCK_ORIENTATION_REVERSE_PORTRAIT" GTK_STOCK_ORIENTATION_REVERSE_PORTRAIT,
   Define.mk "GTK_STOCK_PAGE_SETUP" GTK_STOCK_PAGE_SETUP,
   Define.mk "GTK_STOCK_PASTE" GTK_STOCK_PASTE,
   Define.mk "GTK_STOCK_PREFERENCES" GTK_STOCK_PREFERENCES,
   Define.mk "GTK_STOCK_PRINT" GTK_STOCK_PRINT,
   Define.mk "GTK_STOCK_PRINT_ERROR" GTK_STOCK_PRINT_ERROR,
   Define.mk "GTK_STOCK_PRINT_PAUSED" GTK_STOCK_PRINT_PAUSED,
   Define.mk "GTK_STOCK_PRINT_PREVIEW" GTK_STOCK_PRINT_PREVIEW,
   Define.mk "GTK_STOCK_PRINT_REPORT" GTK_STOCK_PRINT_REPORT,
   Define.mk "GTK_STOCK_PRINT_WARNING" GTK_STOCK_PRINT_WARNING,
   Define.mk "GTK_STOCK_PROPERTIES" GTK_STOCK_PROPERTIES,
   Define.mk "GTK_STOCK_QUIT" GTK_STOCK_QUIT,
   Define.mk "GTK_STOCK_REDO" GTK_STOCK_REDO,
   Define.mk "GTK_STOCK_REFRESH" GTK_STOCK_REFRESH,
   Define.mk "GTK_STOCK_REMOVE" GTK_STOCK_REMOVE,
   Define.mk "GTK_STOCK_REVERT_TO_SAVED" GTK_STOCK_REVERT_TO_SAVED,
   Define.mk "GTK_STOCK_SAVE" GTK_STOCK_SAVE,
   Define.mk "GTK_STOCK_SAVE_AS" GTK_STOCK_SAVE_AS,
   Define.mk "GTK_STOCK_SELECT_ALL" GTK_STOCK_SELECT_ALL,
   Define.mk "GTK_STOCK_SELECT_COLOR" GTK_STOCK_SELECT_COLOR,
   Define.mk "GTK_STOCK_SELECT_FONT" GTK_STOCK_SELECT_FONT,
   Define.mk "GTK_STOCK_SORT_ASCENDING" GTK_STOCK_SORT_ASCENDING,
   Define.mk "GTK_STOCK_SORT_DESCENDING" GTK_STOCK_SORT_DESCENDING,
   Define.mk "GTK_STOCK_SPELL_CHECK" GTK_STOCK_SPELL_CHECK,
   Define.mk "GTK_STOCK_STOP" GTK_STOCK_STOP,
   Define.mk "GTK_STOCK_STRIKETHROUGH" GTK_STOCK_STRIKETHROUGH,
   Define.mk "GTK_STOCK_UNDELETE" GTK_STOCK_UNDELETE,
   Define.mk "GTK_STOCK_UNDERLINE" GTK_STOCK_UNDERLINE,
   Define.mk "GTK_STOCK_UNDO" GTK_STOCK_UNDO,
   Define.mk "GTK_STOCK_UNINDENT" GTK_STOCK_UNINDENT,
   Define.mk "GTK_STOCK_YES" GTK_STOCK_YES,
   Define.mk "GTK_STOCK_ZOOM_100" GTK_STOCK_ZOOM_100,
   Define.mk "GTK_STOCK_ZOOM_FIT" GTK_STOCK_ZOOM_FIT,
   Define.mk "GTK_STOCK_ZOOM_IN" GTK_STOCK_ZOOM_IN,
   Define.mk "GTK_STOCK_ZOOM_OUT" GTK_STOCK_ZOOM_OUT]

/-- The string values of the stock constants, in source order. -/
def stockValues : List String := stockDefines.map Define.value

/-- The macro names of the stock constants, in source order. -/
def stockNames : List String := stockDefines.map Define.name

/-- The replacement string the header gives to a macro name, if it defines it. -/
def lookupDefine (macroName : String) : Option String :=
  (stockDefines.find? (fun d => d.name == macroName)).map Define.value

/-! ## The declarations: record type and prototypes (lines 38 to 69) -/

/-- The C types written in the header.  A typedef name (`gchar`, `guint`,
`gboolean`, `GdkModifierType`, ...) is kept as a name: its definition is in
other headers. -/
inductive CType where
  | void
  | named (typedefName : String)
  | const (t : CType)
  | ptr (t : CType)
deriving DecidableEq, Repr

/-- A declarator `type name`: a member of a struct or a parameter of a function. -/
structure Field where
  ctype : CType
  name : String
deriving DecidableEq, Repr

/-- A function prototype `ret name (params);`. -/
structure Prototype where
  ret : CType
  name : String
  params : List Field
deriving DecidableEq, Repr

/-- The members of `struct _GtkStockItem`, in declaration order (lines 42 to 49). -/
def GtkStockItem_members : List Field :=
  [ Field.mk (.ptr (.named "gchar")) "stock_id",
    Field.mk (.ptr (.named "gchar")) "label",
    Field.mk (.named "GdkModifierType") "modifier",
    Field.mk (.named "guint") "keyval",
    Field.mk (.ptr (.named "gchar")) "translation_domain" ]

/-- The function prototypes of the header, in declaration order (lines 51 to 69). -/
def gtkstock_prototypes : List Prototype :=
  [ Prototype.mk .void "gtk_stock_add"
      [ Field.mk (.ptr (.const (.named "GtkStockItem"))) "items",
        Field.mk (.named "guint") "n_items" ],
    Prototype.mk .void "gtk_stock_add_static"
      [ Field.mk (.ptr (.const (.named "GtkStockItem"))) "items",
        Field.mk (.named "guint") "n_items" ],
    Prototype.mk (.named "gboolean") "gtk_stock_lookup"
      [ Field.mk (.ptr (.const (.named "gchar"))) "stock_id",
        Field.mk (.ptr (.named "GtkStockItem")) "item" ],
    Prototype.mk (.ptr (.named "GSList")) "gtk_stock_list_ids" [],
    Prototype.mk (.ptr (.named "GtkStockItem")) "gtk_stock_item_copy"
      [ Field.mk (.ptr (.const (.named "GtkStockItem"))) "item" ],
    Prototype.mk .void "gtk_stock_item_free"
      [ Field.mk (.ptr (.named "GtkStockItem")) "item" ],
    Prototype.mk .void "gtk_stock_set_translate_func"
      [ Field.mk (.ptr (.const (.named "gchar"))) "domain",
        Field.mk (.named "GtkTranslateFunc") "func",
        Field.mk (.named "gpointer") "data",
        Field.mk (.named "GDestroyNotify") "notify" ] ]

/-- The return type of the prototype with the given name, if the header declares it. -/
def returnTypeOf (fname : String) : Option CType :=
  (gtkstock_prototypes.find? (fun p => p.name == fname)).map Prototype.ret

/-- What the return type of a prototype lets the function hand back to its
caller: nothing (`void`), a boolean status (`gboolean`), a pointer to an
object, or another value. -/
inductive ResultKind where
  | nothing
  | status
  | pointer
  | value
deriving DecidableEq, Repr

/-- The kind of result of a return type. -/
def resultKind : CType → ResultKind
  | .void => .nothing
  | .named "gboolean" => .status
  | .ptr _ => .pointer
  | _ => .value

/-- The parameters through which a function could write back to its caller:
those declared as a pointer to data that is not `const`, each with the name of
its function. -/
def writableParams (protos : List Prototype) : List (String × Field) :=
  protos.flatMap (fun p =>
    (p.params.filter (fun f =>
      match f.ctype with
      | .ptr (.const _) => false
      | .ptr _ => true
      | _ => false)).map (fun f => (p.name, f)))

/-- The kinds of field in the data model of the specification. -/
inductive FieldKind where
  | string
  | optionalString
  | modifierBitmask
  | unsignedInteger
deriving DecidableEq, Repr

/-- The data model of the specification: the five fields of a stock item record,
in order, each with its kind. -/
def specRecord : List (String × FieldKind) :=
  [ ("stock_id", .string),
    ("label", .string),
    ("modifier", .modifierBitmask),
    ("keyval", .unsignedInteger),
    ("translation_domain", .optionalString) ]

/-- Whether a C type of the header represents a kind of field of the data model:
a string is a `gchar *` (a pointer, so it can be NULL, which is how an absent
string is written), the modifier bitmask is `GdkModifierType`, the unsigned
integer is `guint`. -/
def represents : CType → FieldKind → Bool
  | .ptr (.named "gchar"), .string => true
  | .ptr (.named "gchar"), .optionalString => true
  | .named "GdkModifierType", .modifierBitmask => true
  | .named "guint", .unsignedInteger => true
  | _, _ => false

/-- A member of the struct matches a field of the data model: same name, and a
type that represents the field's kind. -/
def memberMatches (m : Field) (f : String × FieldKind) : Bool :=
  m.name == f.1 && represents m.ctype f.2

/-- The struct has the fields of the data model, one for one and in order. -/
def recordMatches (members : List Field) (model : List (String × FieldKind)) : Bool :=
  members.length == model.length && (members.zip model).all (fun p => memberMatches p.1 p.2)

/-! ## The naming convention of the specification -/

/-- Split a string at every hyphen; the segments between hyphens, in order
(an empty segment where two hyphens meet, or at either end). -/
def splitAtHyphens : List Char → List (List Char)
  | [] => [[]]
  | c :: cs =>
    if c = '-' then [] :: splitAtHyphens cs
    else
      match splitAtHyphens cs with
      | [] => [[c]]
      | w :: ws => (c :: w) :: ws

/-- A word of the convention: a non-empty run of lowercase ASCII letters. -/
def isLowercaseWord (w : List Char) : Bool :=
  !w.isEmpty && w.all Char.isLower

/-- A non-empty run of decimal digits. -/
def isNumber (w : List Char) : Bool :=
  !w.isEmpty && w.all Char.isDigit

/-- The convention with the notion of word as a parameter: the string is
`gtk-` followed by one or more words joined by single hyphens. -/
def followsConventionWith (isWord : List Char → Bool) (s : String) : Bool :=
  match splitAtHyphens s.data with
  | lead :: w :: ws => lead == "gtk".data && (w :: ws).all isWord
  | _ => false

/-- The naming convention as the specification states it: the fixed prefix
`gtk-`, then one or more lowercase words joined by single hyphens. -/
def followsNamingConvention (s : String) : Bool :=
  followsConventionWith isLowercaseWord s

/-- The convention the constants do follow: a segment is a lowercase word or a number. -/
def followsRelaxedConvention (s : String) : Bool :=
  followsConventionWith (fun w => isLowercaseWord w || isNumber w) s

/-- The character of a value that stands for a character of a macro name:
an underscore becomes a hyphen, an uppercase letter its lowercase, anything
else (a digit) is kept. -/
def valueChar (c : Char) : Char :=
  if c = '_' then '-' else c.toLower

/-- Remove the leading `lead` from `l`, if `l` starts with it. -/
def dropLeading : List Char → List Char → Option (List Char)
  | [], l => some l
  | _ :: _, [] => none
  | a :: as, b :: bs => if a = b then dropLeading as bs else none

/-- The value derived from a macro name `GTK_STOCK_<NAME>`: `gtk-` followed by
`<NAME>` with every character mapped by `valueChar`. -/
def valueOfMacroName (macroName : String) : Option String :=
  (dropLeading "GTK_STOCK_".data macroName.data).map
    (fun rest => String.mk ("gtk-".data ++ rest.map valueChar))

/-- A character allowed in a derived value: a lowercase letter, a digit or a hyphen. -/
def isValueChar (c : Char) : Bool :=
  c.isLower || c.isDigit || c == '-'

/-! ## The stock item record as a value -/

/-- The record `struct _GtkStockItem` (lines 42 to 49).  The representation of
a `gchar *` member is a parameter: `GtkStockItem Nat` is the record as it lies
in memory (a member is NULL or the address of a string), `GtkStockItem String`
is the record read through its pointers; `none` is NULL.  `modifier` is the
`GdkModifierType` bitmask and `keyval` the `guint`. -/
structure GtkStockItem (Str : Type) where
  stock_id : Option Str
  label : Option Str
  modifier : Nat
  keyval : Nat
  translation_domain : Option Str
deriving DecidableEq, Repr

/-! ## Copying a record (declared in the header, modelled from the specification) -/

/-- Modelled from the spec: the memory `gtk_stock_item_copy` works on (its body
is not in the header).  Strings and records lie in cells, and an address is
the index of a cell; allocation adds a cell at the end. -/
structure Heap where
  strings : List String
  records : List (GtkStockItem Nat)
deriving DecidableEq, Repr

/-- What a `gchar *` points to: `some none` for NULL, `some (some s)` for the
address of the string `s`, and `none` when the address is not a cell. -/
def Heap.readString (h : Heap) : Option Nat → Option (Option String)
  | none => some none
  | some a => (h.strings[a]?).map some

/-- The record at an address, read through its pointers; `none` when the
address or one of the record's pointers is not a cell. -/
def Heap.readItem (h : Heap) (p : Nat) : Option (GtkStockItem String) :=
  match h.records[p]? with
  | none => none
  | some r =>
    match h.readString r.stock_id, h.readString r.label, h.readString r.translation_domain with
    | some sid, some lab, some dom => some ⟨sid, lab, r.modifier, r.keyval, dom⟩
    | _, _, _ => none

/-- Modelled from the spec: duplicate a string (part of a deep copy): NULL
stays NULL, and a string is written to a fresh cell whose address is returned. -/
def Heap.dupString (h : Heap) : Option Nat → Option (Heap × Option Nat)
  | none => some (h, none)
  | some a =>
    match h.strings[a]? with
    | none => none
    | some s => some ({ h with strings := h.strings ++ [s] }, some h.strings.length)

/-- Modelled from the spec: `copy(item) → new record` deep-duplicates a record
(body of `gtk_stock_item_copy` missing): the three strings are duplicated and a
new record pointing to the duplicates is allocated; its address is returned. -/
def gtk_stock_item_copy (h : Heap) (item : Nat) : Option (Heap × Nat) :=
  match h.records[item]? with
  | none => none
  | some r =>
    match h.dupString r.stock_id with
    | none => none
    | some (h1, sid) =>
      match h1.dupString r.label with
      | none => none
      | some (h2, lab) =>
        match h2.dupString r.translation_domain with
        | none => none
        | some (h3, dom) =>
          some ({ h3 with records := h3.records ++ [⟨sid, lab, r.modifier, r.keyval, dom⟩] },
            h3.records.length)

/-! ## Sample data -/

/-- A stock item: the identifier `gtk-save`, a label, an accelerator and a translation domain. -/
def saveItem : GtkStockItem String :=
  ⟨some "gtk-save", some "_Save", 4, 115, some "gtk20"⟩

/-- A stock item: the identifier `gtk-open`, a label, an accelerator and no translation domain. -/
def openItem : GtkStockItem String :=
  ⟨some "gtk-open", some "_Open", 4, 111, none⟩

/-- A heap with two records, `saveItem` at address 0 and `openItem` at address 1,
and their strings. -/
def sampleHeap : Heap :=
  ⟨["gtk-save", "_Save", "gtk20", "gtk-open", "_Open"],
    [⟨some 0, some 1, 4, 115, some 2⟩, ⟨some 3, some 4, 4, 111, none⟩]⟩

/-! # Theorems -/

/-! ## The table of constants -/

set_option maxRecDepth 100000 in
set_option maxHeartbeats 4000000 in
/-- No string occurs twice among the values of the stock constants. -/
theorem stockValues_nodup : stockValues.Nodup := by decide

set_option maxRecDepth 100000 in
set_option maxHeartbeats 4000000 in
/-- No macro name is defined twice. -/
theorem stockNames_nodup : stockNames.Nodup := by decide

set_option maxRecDepth 100000 in
/-- The header defines 105 stock constants. -/
theorem stockDefines_length : stockDefines.length = 105 := by decide

set_option maxRecDepth 100000 in
set_option maxHeartbeats 4000000 in
/-- Every value is the one derived from its macro name. -/
theorem stockDefines_derived :
    ∀ d ∈ stockDefines, valueOfMacroName d.name = some d.value := by decide

set_option maxRecDepth 100000 in
set_option maxHeartbeats 4000000 in
/-- Every value consists of lowercase letters, digits and hyphens. -/
theorem stockDefines_valueChars :
    ∀ d ∈ stockDefines, d.value.data.all isValueChar = true := by decide

set_option maxRecDepth 100000 in
set_option maxHeartbeats 4000000 in
/-- Every value follows the relaxed convention, and every value but that of
`GTK_STOCK_ZOOM_100` the convention of the specification. -/
theorem stockDefines_convention :
    ∀ d ∈ stockDefines, followsRelaxedConvention d.value = true ∧
      (d.name ≠ "GTK_STOCK_ZOOM_100" → followsNamingConvention d.value = true) := by decide

/-- In a list of definitions whose values are pairwise distinct, the value determines the name. -/
theorem name_of_value_eq {l : List Define} (h : (l.map Define.value).Nodup)
    {d e : Define} (hd : d ∈ l) (he : e ∈ l) (hv : d.value = e.value) : d.name = e.name := by
  have := List.inj_on_of_nodup_map h hd he hv
  rw [this]

/-- C1: the stock identifier strings are pairwise distinct: the list of the
values of all `GTK_STOCK_*` constants of the header has no duplicates. -/
theorem C1_stock_ids_pairwise_distinct :
    (stockDefines.map Define.value).Nodup :=
  stockValues_nodup

/-- C2: `GTK_STOCK_OPEN`, `GTK_STOCK_SAVE`, `GTK_STOCK_ABOUT` and
`GTK_STOCK_SAVE_AS` are defined as `gtk-open`, `gtk-save`, `gtk-about` and
`gtk-save-as`, character for character, and each of the four strings is a value
of the table. -/
theorem C2_named_ids_exact :
    (lookupDefine "GTK_STOCK_OPEN" = some "gtk-open" ∧
      lookupDefine "GTK_STOCK_SAVE" = some "gtk-save" ∧
      lookupDefine "GTK_STOCK_ABOUT" = some "gtk-about" ∧
      lookupDefine "GTK_STOCK_SAVE_AS" = some "gtk-save-as") ∧
    (GTK_STOCK_OPEN.data = ['g', 't', 'k', '-', 'o', 'p', 'e', 'n'] ∧
      GTK_STOCK_SAVE.data = ['g', 't', 'k', '-', 's', 'a', 'v', 'e'] ∧
      GTK_STOCK_ABOUT.data = ['g', 't', 'k', '-', 'a', 'b', 'o', 'u', 't'] ∧
      GTK_STOCK_SAVE_AS.data = ['g', 't', 'k', '-', 's', 'a', 'v', 'e', '-', 'a', 's']) ∧
    ("gtk-open" ∈ stockValues ∧ "gtk-save" ∈ stockValues ∧
      "gtk-about" ∈ stockValues ∧ "gtk-save-as" ∈ stockValues) := by
  set_option maxRecDepth 100000 in decide

/-- C3, as stated, fails: the value of `GTK_STOCK_ZOOM_100` is `gtk-zoom-100`,
whose last segment is made of digits, so not every constant of the table is
`gtk-` followed by words of lowercase letters. -/
theorem C3_convention_fails_at_zoom_100 :
    Define.mk "GTK_STOCK_ZOOM_100" "gtk-zoom-100" ∈ stockDefines ∧
    followsNamingConvention "gtk-zoom-100" = false ∧
    ¬ (∀ d ∈ stockDefines, followsNamingConvention d.value = true) := by
  set_option maxRecDepth 100000 in decide

/-- C3, amended: every stock identifier string is `gtk-` followed by one or more
segments joined by single hyphens, a segment being a non-empty run of lowercase
ASCII letters or a non-empty run of digits; and for every constant other than
`GTK_STOCK_ZOOM_100` all segments are words of lowercase letters. -/
theorem C3_convention_amended (d : Define) (hd : d ∈ stockDefines) :
    followsRelaxedConvention d.value = true ∧
    (d.name ≠ "GTK_STOCK_ZOOM_100" → followsNamingConvention d.value = true) :=
  stockDefines_convention d hd

/-- Witness of C3 amended, at `GTK_STOCK_SAVE_AS`. -/
theorem C3_convention_amended_witness :
    Define.mk "GTK_STOCK_SAVE_AS" "gtk-save-as" ∈ stockDefines ∧
    followsRelaxedConvention "gtk-save-as" = true ∧
    followsNamingConvention "gtk-save-as" = true :=
  have hd : Define.mk "GTK_STOCK_SAVE_AS" "gtk-save-as" ∈ stockDefines := by
    set_option maxRecDepth 100000 in decide
  ⟨hd, (C3_convention_amended _ hd).1, (C3_convention_amended _ hd).2 (by decide)⟩

/-- C8, as stated, fails: the number of `GTK_STOCK_*` definitions is not between 130 and 150. -/
theorem C8_count_not_about_140 :
    ¬ (130 ≤ stockDefines.length ∧ stockDefines.length ≤ 150) := by
  rw [stockDefines_length]; decide

/-- C8, amended: the header defines exactly 105 named stock identifier string constants. -/
theorem C8_count_is_105 : stockDefines.length = 105 ∧ stockValues.length = 105 := by
  refine ⟨stockDefines_length, ?_⟩
  simp [stockValues, stockDefines_length]

/-- C10: for every definition `GTK_STOCK_<NAME>` of the header, the value is
`gtk-` followed by `<NAME>` with uppercase letters lowercased and underscores
replaced by hyphens (digits kept); so the value has only the characters `a-z`,
`0-9` and `-`, and two definitions with the same value have the same name. -/
theorem C10_value_derived_from_name (d : Define) (hd : d ∈ stockDefines) :
    valueOfMacroName d.name = some d.value ∧
    (∀ c ∈ d.value.data, c.isLower = true ∨ c.isDigit = true ∨ c = '-') ∧
    (∀ e ∈ stockDefines, e.value = d.value → e.name = d.name) := by
  refine ⟨stockDefines_derived d hd, ?_, ?_⟩
  · intro c hc
    have h := stockDefines_valueChars d hd
    rw [List.all_eq_true] at h
    have hc2 := h c hc
    simpa [isValueChar, or_assoc] using hc2
  · intro e he hv
    exact name_of_value_eq stockValues_nodup he hd hv

/-- Witness of C10, at `GTK_STOCK_ZOOM_100`. -/
theorem C10_value_derived_from_name_witness :
    Define.mk "GTK_STOCK_ZOOM_100" "gtk-zoom-100" ∈ stockDefines ∧
    valueOfMacroName "GTK_STOCK_ZOOM_100" = some "gtk-zoom-100" :=
  have hd : Define.mk "GTK_STOCK_ZOOM_100" "gtk-zoom-100" ∈ stockDefines := by
    set_option maxRecDepth 100000 in decide
  ⟨hd, (C10_value_derived_from_name _ hd).1⟩

/-! ## The declarations -/

/-- C4: the record `GtkStockItem` has exactly five members, in the order and
with the types of the data model: `stock_id` (string, `gchar *`), `label`
(string, `gchar *`), `modifier` (`GdkModifierType` bitmask), `keyval`
(unsigned integer, `guint`), `translation_domain` (a string that may be
absent, `gchar *`); there is no other member. -/
theorem C4_record_has_five_fields_in_order :
    GtkStockItem_members.length = 5 ∧
    GtkStockItem_members.map Field.name =
      ["stock_id", "label", "modifier", "keyval", "translation_domain"] ∧
    GtkStockItem_members.map Field.ctype =
      [.ptr (.named "gchar"), .ptr (.named "gchar"), .named "GdkModifierType",
        .named "guint", .ptr (.named "gchar")] ∧
    recordMatches GtkStockItem_members specRecord = true := by
  decide

/-- C5: of the seven prototypes, `gtk_stock_lookup` is the only one whose result
is a status, a `gboolean`, so lookup is the only declared operation that reports
failure; `gtk_stock_add`, `gtk_stock_add_static`, `gtk_stock_item_free` and
`gtk_stock_set_translate_func` return `void` and can report nothing to their
caller; the two that remain, `gtk_stock_list_ids` and `gtk_stock_item_copy`,
return a pointer to the object they produce (the list, the new record), not a
status; and no function has a parameter through which a status could be
written back: the only pointers to writable data are the record filled by
lookup and the record released by free. -/
theorem C5_only_lookup_returns_boolean :
    gtkstock_prototypes.map (fun p => (p.name, p.ret)) =
      [ ("gtk_stock_add", .void),
        ("gtk_stock_add_static", .void),
        ("gtk_stock_lookup", .named "gboolean"),
        ("gtk_stock_list_ids", .ptr (.named "GSList")),
        ("gtk_stock_item_copy", .ptr (.named "GtkStockItem")),
        ("gtk_stock_item_free", .void),
        ("gtk_stock_set_translate_func", .void) ] ∧
    gtkstock_prototypes.map (fun p => (p.name, resultKind p.ret)) =
      [ ("gtk_stock_add", .nothing),
        ("gtk_stock_add_static", .nothing),
        ("gtk_stock_lookup", .status),
        ("gtk_stock_list_ids", .pointer),
        ("gtk_stock_item_copy", .pointer),
        ("gtk_stock_item_free", .nothing),
        ("gtk_stock_set_translate_func", .nothing) ] ∧
    returnTypeOf "gtk_stock_lookup" = some (.named "gboolean") ∧
    (returnTypeOf "gtk_stock_add" = some .void ∧
      returnTypeOf "gtk_stock_add_static" = some .void ∧
      returnTypeOf "gtk_stock_item_free" = some .void ∧
      returnTypeOf "gtk_stock_set_translate_func" = some .void) ∧
    (gtkstock_prototypes.filter (fun p => p.ret == .named "gboolean")).map Prototype.name =
      ["gtk_stock_lookup"] ∧
    (gtkstock_prototypes.filter (fun p => resultKind p.ret == .status)).map Prototype.name =
      ["gtk_stock_lookup"] ∧
    (gtkstock_prototypes.filter (fun p => p.ret == .void)).map Prototype.name =
      ["gtk_stock_add", "gtk_stock_add_static", "gtk_stock_item_free",
        "gtk_stock_set_translate_func"] ∧
    writableParams gtkstock_prototypes =
      [ ("gtk_stock_lookup", Field.mk (.ptr (.named "GtkStockItem")) "item"),
        ("gtk_stock_item_free", Field.mk (.ptr (.named "GtkStockItem")) "item") ] := by
  decide

/-- C9, as stated, fails: the header does not declare exactly five functions;
it declares `gtk_stock_list_ids`, and two registering functions. -/
theorem C9_not_five_prototypes :
    ¬ (gtkstock_prototypes.length = 5) ∧
    "gtk_stock_list_ids" ∈ gtkstock_prototypes.map Prototype.name ∧
    "gtk_stock_add" ∈ gtkstock_prototypes.map Prototype.name ∧
    "gtk_stock_add_static" ∈ gtkstock_prototypes.map Prototype.name := by
  decide

/-- C9, amended: the header declares exactly seven function prototypes: two
registering functions, the lookup, the listing of identifiers, the copy, the
free and the setter of the translation function; it declares no other function. -/
theorem C9_seven_prototypes :
    gtkstock_prototypes.length = 7 ∧
    gtkstock_prototypes.map Prototype.name =
      ["gtk_stock_add", "gtk_stock_add_static", "gtk_stock_lookup", "gtk_stock_list_ids",
        "gtk_stock_item_copy", "gtk_stock_item_free", "gtk_stock_set_translate_func"] := by
  decide

/-! ## Copying a record -/

/-- An index that holds a cell is below the length. -/
theorem lt_length_of_getElem? {α : Type} (l : List α) (i : Nat) (x : α)
    (hx : l[i]? = some x) : i < l.length := by
  rcases Nat.lt_or_ge i l.length with hlt | hge
  · exact hlt
  · rw [List.getElem?_eq_none hge] at hx; cases hx

/-- Duplicating a string pointer that can be read succeeds: the heap only grows
by string cells, the records are untouched, the new pointer reads the same
string, and a new non-NULL pointer is a cell that was not there before. -/
theorem dupString_spec (h : Heap) (p : Option Nat) (v : Option String)
    (hv : h.readString p = some v) :
    ∃ h1 q, h.dupString p = some (h1, q) ∧ h1.records = h.records ∧
      (∃ ext, h1.strings = h.strings ++ ext) ∧ h1.readString q = some v ∧
      (∀ a, q = some a → h.strings.length ≤ a ∧ a < h1.strings.length) := by
  cases p with
  | none =>
    refine ⟨h, none, rfl, rfl, ⟨[], by simp⟩, hv, ?_⟩
    intro a ha; cases ha
  | some a =>
    simp only [Heap.readString, Option.map_eq_some'] at hv
    obtain ⟨s, hs, rfl⟩ := hv
    refine ⟨{ h with strings := h.strings ++ [s] }, some h.strings.length, ?_, rfl,
      ⟨[s], rfl⟩, ?_, ?_⟩
    · simp [Heap.dupString, hs]
    · simp [Heap.readString]
    · intro b hb
      cases hb
      simp

/-- Reading a string pointer is not changed by new string cells. -/
theorem readString_append (h h1 : Heap) (ext : List String) (hx : h1.strings = h.strings ++ ext)
    (p : Option Nat) (v : Option String) (hv : h.readString p = some v) :
    h1.readString p = some v := by
  cases p with
  | none => exact hv
  | some a =>
    simp only [Heap.readString, Option.map_eq_some'] at hv ⊢
    obtain ⟨s, hs, rfl⟩ := hv
    refine ⟨s, ?_, rfl⟩
    rw [hx, List.getElem?_append_left (lt_length_of_getElem? _ _ _ hs)]
    exact hs

/-- A record that can be read lies in a cell and its three pointers can be read. -/
theorem readItem_eq_some (h : Heap) (p : Nat) (v : GtkStockItem String)
    (hv : h.readItem p = some v) :
    ∃ r, h.records[p]? = some r ∧ h.readString r.stock_id = some v.stock_id ∧
      h.readString r.label = some v.label ∧
      h.readString r.translation_domain = some v.translation_domain ∧
      v.modifier = r.modifier ∧ v.keyval = r.keyval := by
  unfold Heap.readItem at hv
  cases hr : h.records[p]? with
  | none => rw [hr] at hv; cases hv
  | some r =>
    rw [hr] at hv
    cases h1 : h.readString r.stock_id <;> cases h2 : h.readString r.label <;>
      cases h3 : h.readString r.translation_domain <;> simp [h1, h2, h3] at hv
    subst hv
    exact ⟨r, rfl, h1, h2, h3, rfl, rfl⟩

/-- A record in a cell whose three pointers can be read can be read. -/
theorem readItem_of_parts (h : Heap) (p : Nat) (r : GtkStockItem Nat) (v : GtkStockItem String)
    (hr : h.records[p]? = some r) (h1 : h.readString r.stock_id = some v.stock_id)
    (h2 : h.readString r.label = some v.label)
    (h3 : h.readString r.translation_domain = some v.translation_domain)
    (hm : v.modifier = r.modifier) (hk : v.keyval = r.keyval) :
    h.readItem p = some v := by
  unfold Heap.readItem
  rw [hr]
  simp only [h1, h2, h3]
  cases v
  simp_all

/-- Reading a record is not changed by new record cells and new string cells. -/
theorem readItem_extend (h h1 : Heap) (er : List (GtkStockItem Nat)) (es : List String)
    (hr : h1.records = h.records ++ er) (hs : h1.strings = h.strings ++ es)
    (p : Nat) (w : GtkStockItem String) (hw : h.readItem p = some w) :
    h1.readItem p = some w := by
  obtain ⟨r, hrp, a, b, c, hm, hk⟩ := readItem_eq_some h p w hw
  apply readItem_of_parts h1 p r w
  · rw [hr, List.getElem?_append_left (lt_length_of_getElem? _ _ _ hrp)]
    exact hrp
  · exact readString_append h h1 es hs _ _ a
  · exact readString_append h h1 es hs _ _ b
  · exact readString_append h h1 es hs _ _ c
  · exact hm
  · exact hk

/-- C7: for every stock item record that can be read, `gtk_stock_item_copy`
returns a new record that is a deep duplicate of its argument.  The copy is the
one record added to the heap, at an address that held no record before; its
five fields (identifier, label, modifier, key value, translation domain) equal
those of the original; its strings lie in cells that were not there before,
a different cell for each; and the original is left unchanged, as is every
other record and every string that was there. -/
theorem C7_copy_is_deep_duplicate (h : Heap) (item : Nat) (v : GtkStockItem String)
    (hv : h.readItem item = some v) :
    ∃ h1 copy c, gtk_stock_item_copy h item = some (h1, copy) ∧
      copy = h.records.length ∧
      copy ≠ item ∧
      h1.records = h.records ++ [c] ∧
      (∃ ext, h1.strings = h.strings ++ ext) ∧
      h1.readItem copy = some v ∧
      h1.readItem item = some v ∧
      h1.records[item]? = h.records[item]? ∧
      (∀ p w, h.readItem p = some w → h1.readItem p = some w) ∧
      ((∀ a, c.stock_id = some a → h.strings.length ≤ a) ∧
        (∀ a, c.label = some a → h.strings.length ≤ a) ∧
        (∀ a, c.translation_domain = some a → h.strings.length ≤ a)) ∧
      ((∀ a b, c.stock_id = some a → c.label = some b → a ≠ b) ∧
        (∀ a b, c.stock_id = some a → c.translation_domain = some b → a ≠ b) ∧
        (∀ a b, c.label = some a → c.translation_domain = some b → a ≠ b)) := by
  obtain ⟨r, hr, hs, hl, hd, hm, hk⟩ := readItem_eq_some h item v hv
  have hlt : item < h.records.length := lt_length_of_getElem? _ _ _ hr
  obtain ⟨ha, sid, e1, rec1, ⟨x1, hx1⟩, rd1, fr1⟩ := dupString_spec h r.stock_id _ hs
  have hl1 := readString_append h ha x1 hx1 _ _ hl
  have hd1 := readString_append h ha x1 hx1 _ _ hd
  obtain ⟨hb, lab, e2, rec2, ⟨x2, hx2⟩, rd2, fr2⟩ := dupString_spec ha r.label _ hl1
  have hd2 := readString_append ha hb x2 hx2 _ _ hd1
  obtain ⟨hc, dom, e3, rec3, ⟨x3, hx3⟩, rd3, fr3⟩ :=
    dupString_spec hb r.translation_domain _ hd2
  have hrec : hc.records = h.records := by rw [rec3, rec2, rec1]
  have hxc : hc.strings = h.strings ++ (x1 ++ x2 ++ x3) := by
    rw [hx3, hx2, hx1, List.append_assoc, List.append_assoc, List.append_assoc]
  have hlen1 : h.strings.length ≤ ha.strings.length := by rw [hx1]; simp
  have hlen2 : ha.strings.length ≤ hb.strings.length := by rw [hx2]; simp
  have hext : ∀ p w, h.readItem p = some w →
      Heap.readItem { hc with records := hc.records ++ [⟨sid, lab, r.modifier, r.keyval, dom⟩] }
        p = some w := by
    intro p w hw
    exact readItem_extend h
      { hc with records := hc.records ++ [⟨sid, lab, r.modifier, r.keyval, dom⟩] }
      [⟨sid, lab, r.modifier, r.keyval, dom⟩] (x1 ++ x2 ++ x3)
      (by rw [← hrec]) hxc p w hw
  refine ⟨{ hc with records := hc.records ++ [⟨sid, lab, r.modifier, r.keyval, dom⟩] },
    hc.records.length, ⟨sid, lab, r.modifier, r.keyval, dom⟩, ?_, ?_, ?_, ?_, ⟨_, hxc⟩, ?_,
    hext item v hv, ?_, hext, ⟨?_, ?_, ?_⟩, ⟨?_, ?_, ?_⟩⟩
  · simp [gtk_stock_item_copy, hr, e1, e2, e3]
  · rw [hrec]
  · rw [hrec]; exact Nat.ne_of_gt hlt
  · simp [hrec]
  · apply readItem_of_parts _ _ ⟨sid, lab, r.modifier, r.keyval, dom⟩ v
    · simp
    · exact readString_append ha
        { hc with records := hc.records ++ [⟨sid, lab, r.modifier, r.keyval, dom⟩] }
        (x2 ++ x3) (by simp [hx3, hx2]) sid _ rd1
    · exact readString_append hb
        { hc with records := hc.records ++ [⟨sid, lab, r.modifier, r.keyval, dom⟩] }
        x3 (by simp [hx3]) lab _ rd2
    · exact rd3
    · exact hm
    · exact hk
  · simp only [hrec]
    rw [List.getElem?_append_left hlt]
  · intro a h1
    exact (fr1 a h1).1
  · intro a h1
    exact Nat.le_trans hlen1 (fr2 a h1).1
  · intro a h1
    exact Nat.le_trans (Nat.le_trans hlen1 hlen2) (fr3 a h1).1
  · intro a b h1 h2
    have := (fr1 a h1).2
    have := (fr2 b h2).1
    omega
  · intro a b h1 h2
    have := (fr1 a h1).2
    have := (fr3 b h2).1
    omega
  · intro a b h1 h2
    have := (fr2 a h1).2
    have := (fr3 b h2).1
    omega

/-- Witness of C7: in `sampleHeap` the record at address 1 is copied to the new
address 2, where it reads as `openItem`; the records at addresses 0 and 1 still
read as `saveItem` and `openItem`, and the heap has one record more. -/
theorem C7_copy_is_deep_duplicate_witness :
    sampleHeap.readItem 1 = some openItem ∧
    ∃ h1 copy, gtk_stock_item_copy sampleHeap 1 = some (h1, copy) ∧ copy = 2 ∧
      h1.records.length = 3 ∧
      h1.readItem copy = some openItem ∧
      h1.readItem 1 = some openItem ∧
      h1.readItem 0 = some saveItem :=
  have hv : sampleHeap.readItem 1 = some openItem := by decide
  have hs : sampleHeap.readItem 0 = some saveItem := by decide
  match C7_copy_is_deep_duplicate sampleHeap 1 openItem hv with
  | ⟨h1, copy, _, e, hcopy, _, hrec, _, hr, ho, _, hall, _⟩ =>
    ⟨hv, h1, copy, e, hcopy, by rw [hrec]; rfl, hr, ho, hall 0 saveItem hs⟩

end GtkStock
